import Mathlib

set_option autoImplicit false

/-!
Verification development for the Android event capture/replay scripts
(`r.py`, `adbpull.py`, `playx.py`, `replayx.py`).

The Python sources are shallowly embedded: pure parsing helpers become Lean
functions; the mutable recorder objects become explicit state records with
per-call transition functions; external effects (adb subprocesses, the wall
clock, the filesystem) are passed in as explicit parameters.  Wall-clock
instants (`time.time()` float seconds in the sources) are modelled as
integers counting milliseconds, which preserves every duration comparison
the code performs (`0.1` s is `100`, `0.3` s is `300`, `1.0` s is `1000`).
-/

namespace AppiumRec

/-! ## Python string primitives -/

/-- Characters treated as whitespace by Python's `str.split()` (ASCII part). -/
def pyIsSpace (c : Char) : Bool :=
  c = ' ' || c = '\t' || c = '\n' || c = '\r' || c = '\x0b' || c = '\x0c'

/-- Splitter core: walk the characters, accumulating the current (reversed)
token, emitting it at each whitespace run. -/
def splitWsAux : List Char → List Char → List String
  | [], acc => if acc.isEmpty then [] else [String.mk acc.reverse]
  | c :: rest, acc =>
    if pyIsSpace c then
      if acc.isEmpty then splitWsAux rest []
      else String.mk acc.reverse :: splitWsAux rest []
    else splitWsAux rest (c :: acc)

/-- Python `line.split()`: split on whitespace runs, dropping empty pieces. -/
def splitWs (s : String) : List String :=
  splitWsAux s.data []

/-- Python `p.startswith(s)` / character-level prefix test. -/
def pyStartsWith (p s : String) : Bool :=
  p.data.isPrefixOf s.data

/-- Drop the first `n` characters of a string. -/
def strDrop (s : String) (n : Nat) : String :=
  String.mk (s.data.drop n)

/-- Python `line.split()[-1]`, as an `Option` (none iff the line is all whitespace). -/
def lastToken (s : String) : Option String :=
  (splitWs s).getLast?

/-- `subListOf n h`: the character list `n` occurs contiguously inside `h`. -/
def subListOf (n : List Char) : List Char → Bool
  | [] => n.isEmpty
  | c :: rest => n.isPrefixOf (c :: rest) || subListOf n rest

/-- Python `needle in hay` on strings: contiguous substring test. -/
def strContains (hay needle : String) : Bool :=
  subListOf needle.data hay.data

/-- Python `line.strip(":")`: remove `:` characters from both ends. -/
def stripColons (s : String) : String :=
  String.mk (((s.data.dropWhile (· = ':')).reverse.dropWhile (· = ':')).reverse)

/-- Core of `lastSegment`: the accumulator resets at each `'.'`, so at the end
it holds the (reversed) characters after the last dot. -/
def lastSegAux : List Char → List Char → List Char
  | [], acc => acc.reverse
  | c :: rest, acc => if c = '.' then lastSegAux rest [] else lastSegAux rest (c :: acc)

/-- Python `s.split('.')[-1]` (total: `split` on a nonempty separator always
returns a nonempty list). -/
def lastSegment (s : String) : String :=
  String.mk (lastSegAux s.data [])

/-! ## Python `int(str, base)`

Model of the numeric-token grammar accepted by Python's `int` on the tokens
this program can feed it (tokens produced by `str.split()`, hence containing
no whitespace): an optional sign, an optional `0x`/`0X` prefix when the base
is 16, then digits of the base, with single underscores permitted between
digits. -/

/-- Digit value of `c` in the given base (10 or 16), if any. -/
def digitVal? (base : Nat) (c : Char) : Option Nat :=
  if '0' ≤ c ∧ c ≤ '9' ∧ c.toNat - '0'.toNat < base then some (c.toNat - '0'.toNat)
  else if base = 16 ∧ 'a' ≤ c ∧ c ≤ 'f' then some (c.toNat - 'a'.toNat + 10)
  else if base = 16 ∧ 'A' ≤ c ∧ c ≤ 'F' then some (c.toNat - 'A'.toNat + 10)
  else none

/-- Digits of `base` with single underscores between digits, continuing an
already-seen accumulator.  Rejects trailing, doubled, or digit-less
underscores, matching Python's `int`. -/
def pyDigitsAux (base : Nat) : Nat → List Char → Option Nat
  | acc, [] => some acc
  | acc, c :: rest =>
    match digitVal? base c with
    | some d => pyDigitsAux base (acc * base + d) rest
    | none =>
      if c = '_' then
        match rest with
        | [] => none
        | c2 :: rest2 =>
          match digitVal? base c2 with
          | some d => pyDigitsAux base (acc * base + d) rest2
          | none => none
      else none

/-- A digit run must start with an actual digit (no leading underscore). -/
def pyDigitsStart (base : Nat) : List Char → Option Nat
  | [] => none
  | c :: rest =>
    match digitVal? base c with
    | some d => pyDigitsAux base d rest
    | none => none

/-- Unsigned part: in base 16 an optional `0x`/`0X` prefix is accepted,
as Python's `int(s, 16)` does. -/
def pyNat? (base : Nat) (cs : List Char) : Option Nat :=
  if base = 16 then
    match cs with
    | '0' :: 'x' :: rest => pyDigitsStart 16 rest
    | '0' :: 'X' :: rest => pyDigitsStart 16 rest
    | _ => pyDigitsStart 16 cs
  else pyDigitsStart base cs

/-- Python `int(s, base)` on whitespace-free tokens: optional sign, then the
unsigned part.  `none` models the `ValueError` the sources catch. -/
def pyInt? (base : Nat) (s : String) : Option Int :=
  match s.data with
  | '+' :: rest => (pyNat? base rest).map (fun n => (n : Int))
  | '-' :: rest => (pyNat? base rest).map (fun n => -(n : Int))
  | rest => (pyNat? base rest).map (fun n => (n : Int))

/-- The value-token rule shared by both tokenizers:
`int(value[2:], 16) if value.startswith("0x") else int(value)`. -/
def pyHexOrDec (v : String) : Option Int :=
  if pyStartsWith "0x" v then pyInt? 16 (strDrop v 2) else pyInt? 10 v

/-! ## Raw event tokenizers (`_parse_event`) -/

/-- One fragment of parsed information from a single stream line
(the `event_info` dict; absent keys are `none`). -/
structure InputFragment where
  x : Option Int := none
  y : Option Int := none
  event_type : Option String := none
  extra_info : Option String := none
deriving Repr, DecidableEq

/-- ASCII word character, for the `KEY_(\w+)` regex. -/
def isWordChar (c : Char) : Bool := c.isAlphanum || c = '_'

/-- `re.search(r'KEY_(\w+)', line)`: scan left to right for a position where
the literal `KEY_` is followed by at least one word character; the captured
group is the maximal word-character run after the prefix. -/
def findKeyName : List Char → Option String
  | [] => none
  | c :: rest =>
    if "KEY_".data.isPrefixOf (c :: rest) then
      let name := ((c :: rest).drop 4).takeWhile isWordChar
      if name.isEmpty then findKeyName rest else some (String.mk name)
    else findKeyName rest

/-- `r.py._parse_event` (lines 222–256).  The body is guarded by one
`try/except` that prints and returns whatever `event_info` already holds, so
a failed numeric conversion yields the fields assigned before the failure. -/
def parseEventR (line : String) : InputFragment :=
  if strContains line "ABS_MT_POSITION_X" || strContains line "ABS_X" then
    { x := (lastToken line).bind pyHexOrDec }
  else if strContains line "ABS_MT_POSITION_Y" || strContains line "ABS_Y" then
    { y := (lastToken line).bind pyHexOrDec }
  else if strContains line "ABS_MT_PRESSURE" || strContains line "ABS_PRESSURE" then
    { extra_info := ((lastToken line).bind pyHexOrDec).map (fun p => "Pressure:" ++ toString p) }
  else if strContains line "BTN_TOUCH" then
    { event_type := some (if strContains line "DOWN" then "TOUCH_DOWN" else "TOUCH_UP") }
  else if strContains line "ABS_MT_TRACKING_ID" then
    match lastToken line with
    | none => {}
    | some v =>
      if strContains v "ffffffff" then { event_type := some "TOUCH_UP" }
      else { event_type := some "TOUCH_DOWN"
             extra_info := (pyHexOrDec v).map (fun t => "TrackID:" ++ toString t) }
  else if strContains line "EV_SYN SYN_REPORT" then
    { event_type := some "MOTION" }
  else if strContains line "EV_KEY" && strContains line "KEY_" then
    match findKeyName line.data with
    | some name =>
      { event_type := some (if strContains line "DOWN" then "KEY_DOWN" else "KEY_UP")
        extra_info := some ("Key:" ++ name) }
    | none => {}
  else {}

/-- `adbpull.py._parse_event` (lines 205–282).  Per-branch `try/except pass`
blocks give the same drop-on-failure behaviour; `BTN_TOUCH` and `EV_KEY`
assign a kind only on an explicit `DOWN`/`UP` token. -/
def parseEventA (line : String) : InputFragment :=
  if strContains line "ABS_MT_POSITION_X" || strContains line "ABS_X" then
    { x := (lastToken line).bind pyHexOrDec }
  else if strContains line "ABS_MT_POSITION_Y" || strContains line "ABS_Y" then
    { y := (lastToken line).bind pyHexOrDec }
  else if strContains line "ABS_MT_PRESSURE" || strContains line "ABS_PRESSURE" then
    { extra_info := ((lastToken line).bind pyHexOrDec).map (fun p => "Pressure:" ++ toString p) }
  else if strContains line "BTN_TOUCH" then
    if strContains line "DOWN" then { event_type := some "TOUCH_DOWN" }
    else if strContains line "UP" then { event_type := some "TOUCH_UP" }
    else {}
  else if strContains line "ABS_MT_TRACKING_ID" then
    match lastToken line with
    | none => {}
    | some v =>
      if strContains v "ffffffff" then { event_type := some "TOUCH_UP" }
      else { event_type := some "TOUCH_DOWN"
             extra_info := (pyHexOrDec v).map (fun t => "TrackID:" ++ toString t) }
  else if strContains line "EV_SYN SYN_REPORT" then
    { event_type := some "MOTION" }
  else if strContains line "EV_KEY" then
    if strContains line "KEY_" then
      match findKeyName line.data with
      | some name =>
        { event_type := if strContains line "DOWN" then some "KEY_DOWN"
                        else if strContains line "UP" then some "KEY_UP" else none
          extra_info := some ("Key:" ++ name) }
      | none => {}
    else {}
  else {}

/-! ## Data model: pending events, finished records, UI nodes -/

/-- One in-flight aggregation unit (a value of the `pending_events` dict).
Wall-clock `created_at` (Python `time.time()` float seconds) is an exact
rational. -/
structure PendingEvent where
  timestamp : String
  device : String
  package : String
  activity : String
  event_type : String
  x : Option Int
  y : Option Int
  created_at : ℤ
  resource_id : String
  extra_info : String
deriving Repr, DecidableEq

/-- One element of the JSON output array: the pending event minus
`created_at`, plus the sequence number `event_id`. -/
structure Record where
  timestamp : String
  device : String
  package : String
  activity : String
  event_type : String
  x : Option Int
  y : Option Int
  resource_id : String
  extra_info : String
  event_id : Nat
deriving Repr, DecidableEq

/-- `json_obj = event.copy(); json_obj.pop("created_at"); json_obj["event_id"] = k`. -/
def mkRecord (e : PendingEvent) (k : Nat) : Record :=
  { timestamp := e.timestamp, device := e.device, package := e.package,
    activity := e.activity, event_type := e.event_type, x := e.x, y := e.y,
    resource_id := e.resource_id, extra_info := e.extra_info, event_id := k }

/-- One rectangle of a hierarchy snapshot.  `cls` embeds the sources' `class`
dict key (`class` is a reserved word in Lean); `content_desc` and `package`
are populated by `r.py` only and left empty by `adbpull.py`'s extractor. -/
structure UiNode where
  x1 : Int
  y1 : Int
  x2 : Int
  y2 : Int
  resource_id : String := ""
  content_desc : String := ""
  text : String := ""
  cls : String := ""
  package : String := ""
deriving Repr, DecidableEq

/-- `(n['x2'] - n['x1']) * (n['y2'] - n['y1'])`, the `min` key. -/
def area (n : UiNode) : Int :=
  (n.x2 - n.x1) * (n.y2 - n.y1)

/-- `node['x1'] <= x <= node['x2'] and node['y1'] <= y <= node['y2']`. -/
def containsPt (n : UiNode) (x y : Int) : Bool :=
  decide (n.x1 ≤ x ∧ x ≤ n.x2 ∧ n.y1 ≤ y ∧ y ≤ n.y2)

/-- Python `min(b :: l, key=area)`: the first element of minimal area
(a strictly smaller key replaces the current minimum). -/
def minFold (b : UiNode) (l : List UiNode) : UiNode :=
  l.foldl (fun best m => if area m < area best then m else best) b

/-- Label priority of `r.py._find_resource_at_coordinates` (lines 308–319),
including the final fall-through to `"unknown"` when every field is empty. -/
def labelR (n : UiNode) : String :=
  if n.resource_id ≠ "" then n.resource_id
  else if n.content_desc ≠ "" then n.cls ++ " '" ++ n.content_desc ++ "'"
  else if n.text ≠ "" then n.cls ++ " '" ++ n.text ++ "'"
  else if n.cls ≠ "" then lastSegment n.cls
  else "unknown"

/-- Label of `adbpull.py._find_resource_at_coordinates` (lines 349–363):
a text suffix, and the class's last path segment when the node has the
`"no-id"` placeholder resource id. -/
def labelA (n : UiNode) : String :=
  let textInfo := if n.text ≠ "" then " ('" ++ n.text ++ "')" else ""
  if n.resource_id = "no-id" ∧ n.cls ≠ "" then lastSegment n.cls ++ textInfo
  else n.resource_id ++ textInfo

/-- `r.py._find_resource_at_coordinates` (lines 301–319): guard on missing
coordinates or an empty snapshot, filter to containing nodes, take the
minimal-area one, label it. -/
def findResourceR (x? y? : Option Int) (hier : List UiNode) : String :=
  match x?, y? with
  | some x, some y =>
    if hier.isEmpty then "unknown"
    else
      match hier.filter (fun n => containsPt n x y) with
      | [] => "unknown"
      | n :: rest => labelR (minFold n rest)
  | _, _ => "unknown"

/-- `adbpull.py._find_resource_at_coordinates` (lines 337–365): same shape,
without the explicit empty-snapshot guard (an empty snapshot yields no
matching nodes) and with `labelA`. -/
def findResourceA (x? y? : Option Int) (hier : List UiNode) : String :=
  match x?, y? with
  | some x, some y =>
    match hier.filter (fun n => containsPt n x y) with
    | [] => "unknown"
    | n :: rest => labelA (minFold n rest)
  | _, _ => "unknown"

/-! ## Hierarchy refresh (`_update_view_hierarchy`)

The adb round trip (remove, `uiautomator dump`, `pull`, read, parse) is an
external effect; it is embedded as an explicit outcome value.  In both
sources every failure path — command timeout, a dump that reports an error,
a missing local document, a document the parser rejects — returns before any
assignment to `current_view_hierarchy`, and the successful path replaces the
list with the nodes extracted from the pulled document (abstracted here as
the payload of `success`). -/

inductive RefreshResult where
  /-- `subprocess.TimeoutExpired` from one of the adb commands. -/
  | timeout
  /-- the dump command produced an error and no success marker. -/
  | dumpFailed
  /-- no document at the local path after the pull. -/
  | fileMissing
  /-- the hierarchy document failed to parse (`ET.parse` error). -/
  | parseError
  /-- a parsed document, already extracted to its node rectangles. -/
  | success (nodes : List UiNode)
deriving Repr, DecidableEq

/-- `r.py._update_view_hierarchy` (lines 258–299), as a function of the
refresh outcome and the previous snapshot. -/
def updateViewHierarchyR (res : RefreshResult) (old : List UiNode) : List UiNode :=
  match res with
  | .success nodes => nodes
  | _ => old

/-- `adbpull.py._update_view_hierarchy` (lines 284–321): identical snapshot
discipline (failure keeps the previous list, success replaces it). -/
def updateViewHierarchyA (res : RefreshResult) (old : List UiNode) : List UiNode :=
  match res with
  | .success nodes => nodes
  | _ => old

/-! ## Aggregator state machines

Both recorders are embedded as explicit state records.  External inputs that
the methods read behind adb calls — the wall clock (`time.time()` /
`datetime.now()`), the foreground-app query, the hierarchy refresh outcome —
are parameters of the transition functions. -/

/-- First-match association lookup (Python `dict` access; keys are unique in
the dict this models). -/
def lookupD : List (String × PendingEvent) → String → Option PendingEvent
  | [], _ => none
  | (k, v) :: rest, key => if k = key then some v else lookupD rest key

/-- Python `dict` assignment `d[key] = v`: replace in place if the key
exists, else append at the end (dicts preserve insertion order). -/
def setEntry : List (String × PendingEvent) → String → PendingEvent →
    List (String × PendingEvent)
  | [], key, v => [(key, v)]
  | (k, w) :: rest, key, v =>
    if k = key then (key, v) :: rest else (k, w) :: setEntry rest key v

/-- The coordinate/extra updates of `r.py._collect_event_data` (lines
129–136): each present fragment field overwrites the event's field. -/
def mergeCoordsExtra (e : PendingEvent) (f : InputFragment) : PendingEvent :=
  let e1 := match f.x with | some v => { e with x := some v } | none => e
  let e2 := match f.y with | some v => { e1 with y := some v } | none => e1
  match f.extra_info with | some s => { e2 with extra_info := s } | none => e2

/-- State of `r.py`'s `EmulatorEventRecorder` (the fields its capture logic
reads and writes); defaults are the `__init__` values. -/
structure RState where
  current_device : String := "unknown"
  pending_events : List (String × PendingEvent) := []
  current_view_hierarchy : List UiNode := []
  last_hierarchy_update : ℤ := 0
  event_counter : Nat := 0
  current_pkg : String := "unknown"
  current_activity : String := "unknown"
  last_known_pkg : String := "unknown"
  last_known_activity : String := "unknown"
  update_hierarchy_needed : Bool := false
deriving Repr, DecidableEq

/-- The fresh entry `r.py` inserts for an unseen `event_id` (lines 116–127). -/
def freshPendingR (ts : String) (st : RState) (etype : String) (now : ℤ) : PendingEvent :=
  { timestamp := ts, device := st.current_device, package := st.current_pkg,
    activity := st.current_activity, event_type := etype, x := none, y := none,
    created_at := now, resource_id := "unknown", extra_info := "" }

/-- The significant-event block of `r.py._collect_event_data` (lines
141–155): stamp the freshly queried package/activity onto the state and the
event when they are known, and flag an out-of-cycle hierarchy refresh when
they changed. -/
def applyAppInfoR (pkg activity : String) (st : RState) (e : PendingEvent) :
    RState × PendingEvent :=
  let s1 := if pkg ≠ "unknown"
    then ({ st with current_pkg := pkg }, { e with package := pkg })
    else (st, e)
  let s2 := if activity ≠ "unknown"
    then ({ s1.1 with current_activity := activity }, { s1.2 with activity := activity })
    else s1
  if pkg ≠ st.last_known_pkg ∨ activity ≠ st.last_known_activity then
    ({ s2.1 with update_hierarchy_needed := true, last_known_pkg := pkg,
                 last_known_activity := activity }, s2.2)
  else s2

/-- `r.py._collect_event_data` (lines 104–158).  `appInfo` is the pair
`_get_current_app_info` would return (that helper catches its own errors and
falls back to the previous values); `ts` is the `datetime.now()` stamp and
`now` the `time.time()` reading. -/
def collectEventDataR (appInfo : String × String) (ts : String) (now : ℤ)
    (line : String) (st : RState) : RState :=
  if pyStartsWith "/dev/input/" line then
    { st with current_device := stripColons line }
  else
    let info := parseEventR line
    let etype0 := info.event_type.getD "UNKNOWN"
    let eid := ts ++ "_" ++ etype0 ++ "_" ++ st.current_device
    let base := match lookupD st.pending_events eid with
      | some e => e
      | none => freshPendingR ts st etype0 now
    let e1 := mergeCoordsExtra base info
    match info.event_type with
    | none => { st with pending_events := setEntry st.pending_events eid e1 }
    | some t =>
      let e2 := { e1 with event_type := t }
      if t = "TOUCH_DOWN" ∨ t = "KEY_DOWN" then
        let s := applyAppInfoR appInfo.1 appInfo.2 st e2
        { s.1 with pending_events := setEntry s.1.pending_events eid s.2 }
      else
        { st with pending_events := setEntry st.pending_events eid e2 }

/-- `self.buffer_timeout = 0.1` — wall-clock durations are measured in
milliseconds here, so the 0.1 s timeout is 100. -/
def bufferTimeout : ℤ := 100

/-- The flush-time resolution of `r.py._process_buffer` (lines 186–193):
only an event with both coordinates populated gets its `resource_id`
resolved against the current snapshot. -/
def resolveFlushR (hier : List UiNode) (e : PendingEvent) : PendingEvent :=
  if e.x.isSome && e.y.isSome then
    { e with resource_id := findResourceR e.x e.y hier }
  else e

/-- The per-event loop of `r.py._process_buffer` (lines 182–215): an event
whose age exceeds the buffer timeout is resolved, emitted with the next
counter value, and removed; every other event stays.  Returns (remaining
events, emitted records in order, next counter). -/
def flushLoopR (now : ℤ) (hier : List UiNode) :
    List (String × PendingEvent) → Nat →
    List (String × PendingEvent) × List Record × Nat
  | [], k => ([], [], k)
  | (eid, e) :: rest, k =>
    if now - e.created_at > bufferTimeout then
      let r := flushLoopR now hier rest (k + 1)
      (r.1, mkRecord (resolveFlushR hier e) k :: r.2.1, r.2.2)
    else
      let r := flushLoopR now hier rest k
      ((eid, e) :: r.1, r.2.1, r.2.2)

/-- One iteration of `r.py._process_buffer`'s `while` loop (lines 162–217):
the two hierarchy-refresh conditionals (eager on the flag, periodic past one
second), then the flush scan.  `res1`/`res2` are the outcomes of the two
potential refresh invocations. -/
def processBufferTickR (now : ℤ) (res1 res2 : RefreshResult) (st : RState) :
    RState × List Record :=
  let st1 := if st.update_hierarchy_needed then
      { st with current_view_hierarchy := updateViewHierarchyR res1 st.current_view_hierarchy,
                last_hierarchy_update := now, update_hierarchy_needed := false }
    else st
  let st2 := if now - st1.last_hierarchy_update > 1000 then
      { st1 with current_view_hierarchy := updateViewHierarchyR res2 st1.current_view_hierarchy,
                 last_hierarchy_update := now }
    else st1
  let fl := flushLoopR now st2.current_view_hierarchy st2.pending_events st2.event_counter
  ({ st2 with pending_events := fl.1, event_counter := fl.2.2 }, fl.2.1)

/-- State of `adbpull.py`'s `EmulatorEventRecorder`; `coords_x`/`coords_y`
are the session-global `self.coords` register. -/
structure AState where
  coords_x : Option Int := none
  coords_y : Option Int := none
  current_pkg : String := "unknown"
  current_activity : String := "unknown"
  current_device : String := "unknown"
  pending_events : List (String × PendingEvent) := []
  current_view_hierarchy : List UiNode := []
  last_hierarchy_update : ℤ := 0
  event_counter : Nat := 0
deriving Repr, DecidableEq

/-- `adbpull.py._collect_event_data` (lines 103–154): coordinate fragments
update only the global register; a kind-bearing fragment creates or updates
the pending entry with the register's values, and `MOTION`/`TOUCH_UP`
additionally refresh the app context and (rate-limited) the hierarchy. -/
def collectEventDataA (appInfo : String × String) (hierRes : RefreshResult)
    (ts : String) (now : ℤ) (line : String) (st : AState) : AState :=
  if pyStartsWith "/dev/input/" line then
    { st with current_device := stripColons line }
  else
    let info := parseEventA line
    let st1 := { st with coords_x := info.x.or st.coords_x,
                         coords_y := info.y.or st.coords_y }
    match info.event_type with
    | none => st1
    | some t =>
      let eid := ts ++ "_" ++ t ++ "_" ++ st1.current_device
      let pending' := match lookupD st1.pending_events eid with
        | none =>
          st1.pending_events ++ [(eid,
            { timestamp := ts, device := st1.current_device,
              package := st1.current_pkg, activity := st1.current_activity,
              event_type := t, x := st1.coords_x, y := st1.coords_y,
              created_at := now, resource_id := "unknown",
              extra_info := info.extra_info.getD "" })]
        | some e =>
          setEntry st1.pending_events eid
            { e with x := st1.coords_x, y := st1.coords_y, created_at := now,
                     extra_info := info.extra_info.getD e.extra_info }
      let st2 := { st1 with pending_events := pending' }
      if t = "MOTION" ∨ t = "TOUCH_UP" then
        let st3 := { st2 with current_pkg := appInfo.1, current_activity := appInfo.2 }
        if now - st3.last_hierarchy_update > 300 then
          { st3 with current_view_hierarchy :=
                       updateViewHierarchyA hierRes st3.current_view_hierarchy,
                     last_hierarchy_update := now }
        else st3
      else st2

/-- `is_complete` of `adbpull.py._process_buffer` (lines 167–168). -/
def isCompleteA (e : PendingEvent) : Bool :=
  e.x.isSome && e.y.isSome

/-- Flush-time resolution of `adbpull.py._process_buffer` (lines 173–177). -/
def resolveFlushA (hier : List UiNode) (e : PendingEvent) : PendingEvent :=
  if isCompleteA e then
    { e with resource_id := findResourceA e.x e.y hier }
  else e

/-- The per-event loop of `adbpull.py._process_buffer` (lines 163–200):
an event flushes when it is complete **or** older than the buffer timeout. -/
def flushLoopA (now : ℤ) (hier : List UiNode) :
    List (String × PendingEvent) → Nat →
    List (String × PendingEvent) × List Record × Nat
  | [], k => ([], [], k)
  | (eid, e) :: rest, k =>
    if isCompleteA e || decide (now - e.created_at > bufferTimeout) then
      let r := flushLoopA now hier rest (k + 1)
      (r.1, mkRecord (resolveFlushA hier e) k :: r.2.1, r.2.2)
    else
      let r := flushLoopA now hier rest k
      ((eid, e) :: r.1, r.2.1, r.2.2)

/-- One iteration of `adbpull.py._process_buffer`'s `while True` loop
(lines 158–203): a pure flush scan (no hierarchy work happens on this
thread in `adbpull.py`). -/
def processBufferTickA (now : ℤ) (st : AState) : AState × List Record :=
  let fl := flushLoopA now st.current_view_hierarchy st.pending_events st.event_counter
  ({ st with pending_events := fl.1, event_counter := fl.2.2 }, fl.2.1)

/-! ## Replay drivers (`playx.py`, `replayx.py`) -/

/-- The externally visible effect of one `_replay_touch_event` call. -/
inductive ReplayAction where
  /-- warning printed, no device command (playx's null-coordinate guard). -/
  | skipNull
  /-- `adb shell input tap <xText> <yText>` issued with these argument texts. -/
  | tap (xText yText : String)
  /-- `TOUCH_UP`: nothing issued (covered by the tap). -/
  | touchUpNoop
  /-- `MOTION`: logged, not replayed. -/
  | motionLog
  /-- none of the three touch kinds matched. -/
  | unmatched
deriving Repr, DecidableEq

/-- Python f-string interpolation of a possibly-`None` value. -/
def pyReprOptInt (v : Option Int) : String :=
  match v with
  | some n => toString n
  | none => "None"

/-- `playx.py._replay_touch_event` (lines 114–135): null coordinates are
skipped with a warning before any command is built. -/
def replayTouchEventP (e : Record) : ReplayAction :=
  if e.x = none ∨ e.y = none then .skipNull
  else if e.event_type = "TOUCH_DOWN" then .tap (pyReprOptInt e.x) (pyReprOptInt e.y)
  else if e.event_type = "TOUCH_UP" then .touchUpNoop
  else if e.event_type = "MOTION" then .motionLog
  else .unmatched

/-- `replayx.py._replay_touch_event` (lines 112–130): no null-coordinate
guard; a `TOUCH_DOWN` always formats the coordinates (f-strings render
`None` as the text `"None"`) into a tap command. -/
def replayTouchEventX (e : Record) : ReplayAction :=
  if e.event_type = "TOUCH_DOWN" then .tap (pyReprOptInt e.x) (pyReprOptInt e.y)
  else if e.event_type = "TOUCH_UP" then .touchUpNoop
  else if e.event_type = "MOTION" then .motionLog
  else .unmatched

/-- ASCII `str.upper` on one character. -/
def pyUpperChar (c : Char) : Char :=
  if 97 ≤ c.toNat ∧ c.toNat ≤ 122 then Char.ofNat (c.toNat - 32) else c

/-- Python `key_name.upper()` (the key names this program produces are ASCII
word characters, on which Python's `upper` is exactly the ASCII map). -/
def pyUpper (s : String) : String :=
  String.mk (s.data.map pyUpperChar)

/-- `_map_key_name_to_code` of `playx.py` (lines 151–161) and `replayx.py`
(lines 144–155), identical in both: `key_map.get(key_name.upper(), None)`. -/
def mapKeyNameToCode (keyName : String) : Option String :=
  let u := pyUpper keyName
  if u = "ENTER" then some "66"
  else if u = "BACK" then some "4"
  else if u = "HOME" then some "3"
  else if u = "MENU" then some "82"
  else if u = "VOLUME_UP" then some "24"
  else if u = "VOLUME_DOWN" then some "25"
  else none

/-! ## Specification predicates

Named propositions used in the claim statements (kept as definitions so that
concrete instances are decidable). -/

/-- The five event kinds the output schema admits. -/
def fiveTypes : List String :=
  ["TOUCH_DOWN", "TOUCH_UP", "MOTION", "KEY_DOWN", "KEY_UP"]

/-- The kinds that can actually reach `r.py`'s pending map: the five schema
kinds plus the `"UNKNOWN"` placeholder used for kind-less fragments. -/
def allowedTypes : List String :=
  fiveTypes ++ ["UNKNOWN"]

/-- Every pending event of the map carries one of the allowed kinds. -/
def PendingTypesOK (l : List (String × PendingEvent)) : Prop :=
  ∀ p ∈ l, p.2.event_type ∈ allowedTypes

/-- Every emitted record carries one of the allowed kinds. -/
def RecordTypesOK (rs : List Record) : Prop :=
  ∀ r ∈ rs, r.event_type ∈ allowedTypes

instance decPendingTypesOK (l : List (String × PendingEvent)) :
    Decidable (PendingTypesOK l) :=
  List.decidableBAll _ l

instance decRecordTypesOK (rs : List Record) : Decidable (RecordTypesOK rs) :=
  List.decidableBAll _ rs

/-- The event `e` was emitted into `recs` under some sequence number. -/
def EmittedWithId (recs : List Record) (e : PendingEvent) : Prop :=
  ∃ j, mkRecord e j ∈ recs

/-- Two snapshots answer every resolve query identically, for both files'
hit-test implementations. -/
def SameResolveResults (h1 h2 : List UiNode) : Prop :=
  ∀ x? y? : Option Int,
    findResourceR x? y? h1 = findResourceR x? y? h2 ∧
    findResourceA x? y? h1 = findResourceA x? y? h2

/-- The hit-test result characterization shared by both recorders: some
containing node of minimal area among all containing nodes is the one whose
label (per the respective file's priority rule) is returned. -/
def ResolvesToMinimalNode (x y : Int) (hier : List UiNode) : Prop :=
  ∃ n, n ∈ hier ∧ containsPt n x y = true ∧
    (∀ m ∈ hier, containsPt m x y = true → area n ≤ area m) ∧
    findResourceR (some x) (some y) hier = labelR n ∧
    findResourceA (some x) (some y) hier = labelA n


/-! ### Concrete fixtures for the witnesses -/

/-- A one-button snapshot node. -/
def btnNode : UiNode :=
  { x1 := 0, y1 := 0, x2 := 10, y2 := 10, resource_id := "btn" }

/-- A pending touch event with both coordinates populated, created at time 0. -/
def completeEvent : PendingEvent :=
  { timestamp := "t", device := "d", package := "p", activity := "a",
    event_type := "TOUCH_DOWN", x := some 5, y := some 5, created_at := 0,
    resource_id := "unknown", extra_info := "" }

/-- A pending event that received only a kind-bearing fragment: both
coordinates null, `resource_id` still the `"unknown"` default. -/
def kindOnlyEvent : PendingEvent :=
  { timestamp := "t", device := "d", package := "p", activity := "a",
    event_type := "TOUCH_DOWN", x := none, y := none, created_at := 0,
    resource_id := "unknown", extra_info := "" }


/-! ## Helper lemmas -/

theorem char_toNat_ofNat_valid {n : Nat} (h : n < 55296) : (Char.ofNat n).toNat = n := by
  have hv : Nat.isValidChar n := Or.inl h
  rw [Char.ofNat, dif_pos hv]
  simp [Char.ofNatAux, Char.toNat, UInt32.ofNat', UInt32.toNat]

theorem pyUpperChar_idem (c : Char) : pyUpperChar (pyUpperChar c) = pyUpperChar c := by
  by_cases h : 97 ≤ c.toNat ∧ c.toNat ≤ 122
  · have ht : (Char.ofNat (c.toNat - 32)).toNat = c.toNat - 32 :=
      char_toNat_ofNat_valid (by omega)
    simp only [pyUpperChar, if_pos h]
    rw [if_neg (by rw [ht]; omega)]
  · simp only [pyUpperChar, if_neg h]

theorem pyUpper_idem (s : String) : pyUpper (pyUpper s) = pyUpper s := by
  simp only [pyUpper]
  congr 1
  rw [List.map_map]
  exact List.map_congr_left (fun c _ => by simp [Function.comp, pyUpperChar_idem])

/-! ## Claim C9: key-name mapping is case-invariant -/

/-- C9: `_map_key_name_to_code` (identical in `playx.py` and `replayx.py`) is
invariant under letter case — mapping a name equals mapping its uppercased
form — returns the table code whenever the uppercased name is one of the six
table keys (ENTER→66, BACK→4, HOME→3, MENU→82, VOLUME_UP→24,
VOLUME_DOWN→25), returns `none` for every other name, and in particular the
lowercase name `"back"` is still mapped (to code 4). -/
theorem c9_key_map_case_invariant :
    (∀ s : String, mapKeyNameToCode s = mapKeyNameToCode (pyUpper s)) ∧
    (∀ s : String, pyUpper s = "ENTER" → mapKeyNameToCode s = some "66") ∧
    (∀ s : String, pyUpper s = "BACK" → mapKeyNameToCode s = some "4") ∧
    (∀ s : String, pyUpper s = "HOME" → mapKeyNameToCode s = some "3") ∧
    (∀ s : String, pyUpper s = "MENU" → mapKeyNameToCode s = some "82") ∧
    (∀ s : String, pyUpper s = "VOLUME_UP" → mapKeyNameToCode s = some "24") ∧
    (∀ s : String, pyUpper s = "VOLUME_DOWN" → mapKeyNameToCode s = some "25") ∧
    (∀ s : String,
      pyUpper s ∉ (["ENTER", "BACK", "HOME", "MENU", "VOLUME_UP", "VOLUME_DOWN"] : List String) →
      mapKeyNameToCode s = none) ∧
    mapKeyNameToCode "back" = some "4" := by
  refine ⟨fun s => ?_, fun s h => ?_, fun s h => ?_, fun s h => ?_, fun s h => ?_,
    fun s h => ?_, fun s h => ?_, fun s h => ?_, by decide⟩
  · simp only [mapKeyNameToCode, pyUpper_idem]
  · simp [mapKeyNameToCode, h]
  · simp [mapKeyNameToCode, h]
  · simp [mapKeyNameToCode, h]
  · simp [mapKeyNameToCode, h]
  · simp [mapKeyNameToCode, h]
  · simp [mapKeyNameToCode, h]
  · simp only [List.mem_cons, List.not_mem_nil, not_or, or_false] at h
    obtain ⟨h1, h2, h3, h4, h5, h6⟩ := h
    simp [mapKeyNameToCode, h1, h2, h3, h4, h5, h6]

/-- Witness for C9 at concrete inputs. -/
theorem c9_key_map_case_invariant_witness :
    mapKeyNameToCode "enter" = some "66" ∧
    mapKeyNameToCode "Foo" = none ∧
    mapKeyNameToCode "back" = mapKeyNameToCode (pyUpper "back") := by
  refine ⟨?_, ?_, ?_⟩
  · exact c9_key_map_case_invariant.2.1 "enter" (by decide)
  · exact c9_key_map_case_invariant.2.2.2.2.2.2.2.1 "Foo" (by decide)
  · exact c9_key_map_case_invariant.1 "back"

/-! ## Claim C8: replay of null-coordinate touch events -/

/-- C8 counterexample: `replayx.py._replay_touch_event` has no null-coordinate
guard — a `TOUCH_DOWN` record with `x = y = null` makes it issue the command
`adb shell input tap None None` (the f-string renders `None` literally)
instead of skipping the event, so the claim that the replay driver never
issues a tap command built from null coordinates is false for this file. -/
theorem c8_counterexample :
    replayTouchEventX
      { timestamp := "00:00:00.000", device := "/dev/input/event1", package := "p",
        activity := "a", event_type := "TOUCH_DOWN", x := none, y := none,
        resource_id := "unknown", extra_info := "", event_id := 0 } =
      ReplayAction.tap "None" "None" := by decide

/-- C8 (amended): `playx.py` skips any touch record with a null coordinate
with a warning before building a command, while `replayx.py` performs no null
check and always turns a `TOUCH_DOWN` into a tap command whose argument texts
are the f-string renderings of the coordinates (`"None"` when null); neither
path raises an uncaught Python error. -/
theorem c8_null_coordinate_handling :
    (∀ e : Record, e.x = none ∨ e.y = none →
      replayTouchEventP e = ReplayAction.skipNull) ∧
    (∀ e : Record, e.event_type = "TOUCH_DOWN" →
      replayTouchEventX e = ReplayAction.tap (pyReprOptInt e.x) (pyReprOptInt e.y)) := by
  constructor
  · intro e h
    simp only [replayTouchEventP, if_pos h]
  · intro e h
    simp only [replayTouchEventX, if_pos h]

/-- Witness for C8 at concrete records. -/
theorem c8_null_coordinate_handling_witness :
    replayTouchEventP
      { timestamp := "t", device := "d", package := "p", activity := "a",
        event_type := "MOTION", x := none, y := some 5,
        resource_id := "unknown", extra_info := "", event_id := 1 } =
      ReplayAction.skipNull ∧
    replayTouchEventX
      { timestamp := "t", device := "d", package := "p", activity := "a",
        event_type := "TOUCH_DOWN", x := some 12, y := some 34,
        resource_id := "unknown", extra_info := "", event_id := 2 } =
      ReplayAction.tap "12" "34" := by
  constructor
  · exact c8_null_coordinate_handling.1 _ (Or.inl rfl)
  · exact c8_null_coordinate_handling.2 _ rfl

/-! ## Claim C10: `BTN_TOUCH` classification -/

/-- C10 counterexample: not every line containing `BTN_TOUCH` is assigned an
event kind by `r.py`'s tokenizer — a line that also contains an earlier
branch's substring (here `ABS_X`) is consumed by the coordinate branch, whose
numeric parse fails, leaving the fragment with no kind at all. -/
theorem c10_counterexample :
    strContains "ABS_X BTN_TOUCH" "BTN_TOUCH" = true ∧
    (parseEventR "ABS_X BTN_TOUCH").event_type = none := by decide

/-- C10 (amended): for every line containing `BTN_TOUCH` and none of the
position/pressure substrings matched by the earlier branches
(`ABS_MT_POSITION_X`, `ABS_X`, `ABS_MT_POSITION_Y`, `ABS_Y`,
`ABS_MT_PRESSURE`, `ABS_PRESSURE`), `r.py` assigns `TOUCH_DOWN` if the line
contains `DOWN` and `TOUCH_UP` otherwise — even when no `UP` token is present
— whereas `adbpull.py` assigns no kind to such a garbled line (one with
neither `DOWN` nor `UP`). -/
theorem c10_btn_touch_classification (line : String)
    (hb : strContains line "BTN_TOUCH" = true)
    (h1 : strContains line "ABS_MT_POSITION_X" = false)
    (h2 : strContains line "ABS_X" = false)
    (h3 : strContains line "ABS_MT_POSITION_Y" = false)
    (h4 : strContains line "ABS_Y" = false)
    (h5 : strContains line "ABS_MT_PRESSURE" = false)
    (h6 : strContains line "ABS_PRESSURE" = false) :
    (parseEventR line).event_type =
      some (if strContains line "DOWN" then "TOUCH_DOWN" else "TOUCH_UP") ∧
    (strContains line "DOWN" = false → strContains line "UP" = false →
      (parseEventA line).event_type = none) := by
  constructor
  · simp [parseEventR, hb, h1, h2, h3, h4, h5, h6]
  · intro hd hu
    simp [parseEventA, hb, h1, h2, h3, h4, h5, h6, hd, hu]

/-- Witness for C10 on a garbled `BTN_TOUCH` line. -/
theorem c10_btn_touch_classification_witness :
    (parseEventR "BTN_TOUCH garbled").event_type =
      some (if strContains "BTN_TOUCH garbled" "DOWN" then "TOUCH_DOWN" else "TOUCH_UP") ∧
    (strContains "BTN_TOUCH garbled" "DOWN" = false →
      strContains "BTN_TOUCH garbled" "UP" = false →
      (parseEventA "BTN_TOUCH garbled").event_type = none) :=
  c10_btn_touch_classification "BTN_TOUCH garbled" (by decide) (by decide) (by decide)
    (by decide) (by decide) (by decide) (by decide)

/-! ## Claim C7: absolute-axis position parsing -/

/-- C7: for a stream line carrying an absolute-axis position report, both
tokenizers set the fragment's `x` (for `ABS_MT_POSITION_X`/`ABS_X` lines) or
`y` (for the Y equivalents, which are tested only after the X branch fails)
to the line's last whitespace-separated token parsed as hexadecimal when it
begins with `0x` and as decimal otherwise; a token that parses as neither
leaves the coordinate unset (`pyInt?` returns `none` exactly where Python's
`int` raises the `ValueError` both sources catch), and no other fragment
field is produced. -/
theorem c7_abs_position_parsing (line v : String)
    (hv : lastToken line = some v) :
    ((strContains line "ABS_MT_POSITION_X" || strContains line "ABS_X") = true →
      (parseEventR line).x = pyHexOrDec v ∧ (parseEventA line).x = pyHexOrDec v ∧
      (parseEventR line).y = none ∧ (parseEventA line).y = none ∧
      (parseEventR line).event_type = none ∧ (parseEventA line).event_type = none) ∧
    (strContains line "ABS_MT_POSITION_X" = false → strContains line "ABS_X" = false →
      (strContains line "ABS_MT_POSITION_Y" || strContains line "ABS_Y") = true →
      (parseEventR line).y = pyHexOrDec v ∧ (parseEventA line).y = pyHexOrDec v ∧
      (parseEventR line).x = none ∧ (parseEventA line).x = none ∧
      (parseEventR line).event_type = none ∧ (parseEventA line).event_type = none) ∧
    (∀ w : String, pyHexOrDec w =
      if pyStartsWith "0x" w then pyInt? 16 (strDrop w 2) else pyInt? 10 w) := by
  refine ⟨fun h => ?_, fun h1 h2 h => ?_, fun w => rfl⟩
  · simp [parseEventR, parseEventA, h, hv]
  · simp [parseEventR, parseEventA, h, h1, h2, hv]

/-- Witness for C7 on concrete X and Y report lines. -/
theorem c7_abs_position_parsing_witness :
    ((strContains "EV_ABS ABS_MT_POSITION_X 0x64" "ABS_MT_POSITION_X" ||
        strContains "EV_ABS ABS_MT_POSITION_X 0x64" "ABS_X") = true →
      (parseEventR "EV_ABS ABS_MT_POSITION_X 0x64").x = pyHexOrDec "0x64" ∧
      (parseEventA "EV_ABS ABS_MT_POSITION_X 0x64").x = pyHexOrDec "0x64" ∧
      (parseEventR "EV_ABS ABS_MT_POSITION_X 0x64").y = none ∧
      (parseEventA "EV_ABS ABS_MT_POSITION_X 0x64").y = none ∧
      (parseEventR "EV_ABS ABS_MT_POSITION_X 0x64").event_type = none ∧
      (parseEventA "EV_ABS ABS_MT_POSITION_X 0x64").event_type = none) ∧
    ((parseEventR "EV_ABS ABS_Y junk").y = pyHexOrDec "junk" ∧
      (parseEventA "EV_ABS ABS_Y junk").y = pyHexOrDec "junk" ∧
      (parseEventR "EV_ABS ABS_Y junk").x = none ∧
      (parseEventA "EV_ABS ABS_Y junk").x = none ∧
      (parseEventR "EV_ABS ABS_Y junk").event_type = none ∧
      (parseEventA "EV_ABS ABS_Y junk").event_type = none) := by
  constructor
  · exact (c7_abs_position_parsing "EV_ABS ABS_MT_POSITION_X 0x64" "0x64" (by decide)).1
  · exact (c7_abs_position_parsing "EV_ABS ABS_Y junk" "junk" (by decide)).2.1
      (by decide) (by decide) (by decide)

/-! ## Claim C5: smallest-area hit test -/

theorem minFold_mem (b : UiNode) (l : List UiNode) : minFold b l ∈ b :: l := by
  induction l generalizing b with
  | nil => simp [minFold]
  | cons m t ih =>
    have h := ih (if area m < area b then m else b)
    rcases List.mem_cons.mp h with h1 | h2
    · show minFold (if area m < area b then m else b) t ∈ b :: m :: t
      rw [h1]
      split <;> simp
    · exact List.mem_cons_of_mem _ (List.mem_cons_of_mem _ h2)

theorem minFold_le (b : UiNode) (l : List UiNode) :
    area (minFold b l) ≤ area b ∧ ∀ m ∈ l, area (minFold b l) ≤ area m := by
  induction l generalizing b with
  | nil => simp [minFold]
  | cons m t ih =>
    have h := ih (if area m < area b then m else b)
    have hstep : area (if area m < area b then m else b) ≤ area b ∧
        area (if area m < area b then m else b) ≤ area m := by
      split <;> omega
    refine ⟨le_trans ?_ hstep.1, ?_⟩
    · exact h.1
    · intro m' hm'
      rcases List.mem_cons.mp hm' with rfl | hm'
      · exact le_trans h.1 hstep.2
      · exact h.2 m' hm'

/-- C5: if at least one node of the snapshot contains the queried point, both
`_find_resource_at_coordinates` implementations derive their result from a
containing node of minimal area `(x2-x1)*(y2-y1)`; if no node contains the
point (in particular if the snapshot is empty), both return `"unknown"`. -/
theorem c5_resolve_smallest_area (x y : Int) (hier : List UiNode) :
    ((∃ n ∈ hier, containsPt n x y = true) → ResolvesToMinimalNode x y hier) ∧
    ((∀ n ∈ hier, containsPt n x y = false) →
      findResourceR (some x) (some y) hier = "unknown" ∧
      findResourceA (some x) (some y) hier = "unknown") := by
  constructor
  · rintro ⟨n0, hn0, hc0⟩
    have hn0f : n0 ∈ hier.filter (fun n => containsPt n x y) :=
      List.mem_filter.mpr ⟨hn0, hc0⟩
    obtain ⟨h, t, heq⟩ : ∃ a l, hier.filter (fun n => containsPt n x y) = a :: l :=
      List.exists_cons_of_ne_nil (fun hemp => by rw [hemp] at hn0f; cases hn0f)
    have hwmem : minFold h t ∈ hier.filter (fun n => containsPt n x y) := by
      rw [heq]; exact minFold_mem h t
    have hw := List.mem_filter.mp hwmem
    refine ⟨minFold h t, hw.1, hw.2, ?_, ?_, ?_⟩
    · intro m hm hcm
      have hmf : m ∈ hier.filter (fun n => containsPt n x y) :=
        List.mem_filter.mpr ⟨hm, hcm⟩
      rw [heq] at hmf
      rcases List.mem_cons.mp hmf with heq2 | hmt
      · rw [heq2]; exact (minFold_le h t).1
      · exact (minFold_le h t).2 m hmt
    · have hne : hier.isEmpty = false := by
        cases hier with
        | nil => cases hn0
        | cons a l => rfl
      simp only [findResourceR, hne, Bool.false_eq_true, if_false, heq]
    · simp only [findResourceA, heq]
  · intro hall
    have hf : hier.filter (fun n => containsPt n x y) = [] := by
      simp only [List.filter_eq_nil_iff]
      intro n hn
      simp [hall n hn]
    constructor
    · cases he : hier.isEmpty with
      | true => simp only [findResourceR, he, if_true]
      | false => simp only [findResourceR, he, Bool.false_eq_true, if_false, hf]
    · simp only [findResourceA, hf]

/-- Witness for C5: two nested rectangles — the query inside both resolves
through the smaller one; a query outside both yields `"unknown"`. -/
theorem c5_resolve_smallest_area_witness :
    ResolvesToMinimalNode 5 5
      [{ x1 := 0, y1 := 0, x2 := 100, y2 := 100, resource_id := "big" },
       { x1 := 0, y1 := 0, x2 := 10, y2 := 10, resource_id := "small" }] ∧
    (findResourceR (some 500) (some 500)
        [{ x1 := 0, y1 := 0, x2 := 100, y2 := 100, resource_id := "big" },
         { x1 := 0, y1 := 0, x2 := 10, y2 := 10, resource_id := "small" }] = "unknown" ∧
      findResourceA (some 500) (some 500)
        [{ x1 := 0, y1 := 0, x2 := 100, y2 := 100, resource_id := "big" },
         { x1 := 0, y1 := 0, x2 := 10, y2 := 10, resource_id := "small" }] = "unknown") := by
  constructor
  · exact (c5_resolve_smallest_area 5 5 _).1 (by decide)
  · exact (c5_resolve_smallest_area 500 500 _).2 (by decide)

/-! ## Claim C6: refresh failure retains the previous snapshot -/

/-- C6: on every failing hierarchy-refresh outcome (command timeout, failed
dump, missing document, unparseable document) both recorders leave the
stored snapshot exactly as it was, so every subsequent resolve query answers
as before the failed refresh. -/
theorem c6_refresh_failure_is_noop (res : RefreshResult) (old : List UiNode)
    (hfail : ∀ nodes, res ≠ RefreshResult.success nodes) :
    updateViewHierarchyR res old = old ∧
    updateViewHierarchyA res old = old ∧
    SameResolveResults (updateViewHierarchyR res old) old ∧
    SameResolveResults (updateViewHierarchyA res old) old := by
  cases res with
  | success nodes => exact absurd rfl (hfail nodes)
  | timeout => exact ⟨rfl, rfl, fun _ _ => ⟨rfl, rfl⟩, fun _ _ => ⟨rfl, rfl⟩⟩
  | dumpFailed => exact ⟨rfl, rfl, fun _ _ => ⟨rfl, rfl⟩, fun _ _ => ⟨rfl, rfl⟩⟩
  | fileMissing => exact ⟨rfl, rfl, fun _ _ => ⟨rfl, rfl⟩, fun _ _ => ⟨rfl, rfl⟩⟩
  | parseError => exact ⟨rfl, rfl, fun _ _ => ⟨rfl, rfl⟩, fun _ _ => ⟨rfl, rfl⟩⟩

/-- Witness for C6: a parse failure over a one-node snapshot. -/
theorem c6_refresh_failure_is_noop_witness :
    updateViewHierarchyR RefreshResult.parseError
        [{ x1 := 0, y1 := 0, x2 := 10, y2 := 10, resource_id := "btn" }] =
      [{ x1 := 0, y1 := 0, x2 := 10, y2 := 10, resource_id := "btn" }] ∧
    updateViewHierarchyA RefreshResult.parseError
        [{ x1 := 0, y1 := 0, x2 := 10, y2 := 10, resource_id := "btn" }] =
      [{ x1 := 0, y1 := 0, x2 := 10, y2 := 10, resource_id := "btn" }] ∧
    SameResolveResults
      (updateViewHierarchyR RefreshResult.parseError
        [{ x1 := 0, y1 := 0, x2 := 10, y2 := 10, resource_id := "btn" }])
      [{ x1 := 0, y1 := 0, x2 := 10, y2 := 10, resource_id := "btn" }] ∧
    SameResolveResults
      (updateViewHierarchyA RefreshResult.parseError
        [{ x1 := 0, y1 := 0, x2 := 10, y2 := 10, resource_id := "btn" }])
      [{ x1 := 0, y1 := 0, x2 := 10, y2 := 10, resource_id := "btn" }] :=
  c6_refresh_failure_is_noop RefreshResult.parseError
    [{ x1 := 0, y1 := 0, x2 := 10, y2 := 10, resource_id := "btn" }]
    (fun _nodes h => RefreshResult.noConfusion h)

/-! ## Pending-map and flush-loop lemmas -/

theorem lookupD_mem (l : List (String × PendingEvent)) (key : String) (e : PendingEvent)
    (h : lookupD l key = some e) : (key, e) ∈ l := by
  induction l with
  | nil => cases h
  | cons hd tl ih =>
    obtain ⟨k, v⟩ := hd
    by_cases hk : k = key
    · subst hk
      simp only [lookupD, if_pos rfl] at h
      injection h with h'
      subst h'
      exact List.mem_cons_self _ _
    · simp only [lookupD, if_neg hk] at h
      exact List.mem_cons_of_mem _ (ih h)

theorem setEntry_mem (l : List (String × PendingEvent)) (key : String) (v : PendingEvent)
    (p : String × PendingEvent) (h : p ∈ setEntry l key v) : p = (key, v) ∨ p ∈ l := by
  induction l with
  | nil =>
    simp only [setEntry, List.mem_singleton] at h
    exact Or.inl h
  | cons hd tl ih =>
    obtain ⟨k, w⟩ := hd
    by_cases hk : k = key
    · simp only [setEntry, if_pos hk] at h
      rcases List.mem_cons.mp h with h1 | h2
      · exact Or.inl h1
      · exact Or.inr (List.mem_cons_of_mem _ h2)
    · simp only [setEntry, if_neg hk] at h
      rcases List.mem_cons.mp h with h1 | h2
      · exact Or.inr (h1 ▸ List.mem_cons_self _ _)
      · rcases ih h2 with h3 | h4
        · exact Or.inl h3
        · exact Or.inr (List.mem_cons_of_mem _ h4)

theorem setEntry_of_lookup_none (l : List (String × PendingEvent)) (key : String)
    (v : PendingEvent) (h : lookupD l key = none) : setEntry l key v = l ++ [(key, v)] := by
  induction l with
  | nil => rfl
  | cons hd tl ih =>
    obtain ⟨k, w⟩ := hd
    by_cases hk : k = key
    · simp only [lookupD, if_pos hk] at h
      exact Option.noConfusion h
    · simp only [lookupD, if_neg hk] at h
      simp only [setEntry, if_neg hk, ih h, List.cons_append]

theorem mergeCoordsExtra_event_type (e : PendingEvent) (f : InputFragment) :
    (mergeCoordsExtra e f).event_type = e.event_type := by
  unfold mergeCoordsExtra
  cases f.x <;> cases f.y <;> cases f.extra_info <;> rfl

theorem applyAppInfoR_event_type (pkg activity : String) (st : RState) (e : PendingEvent) :
    (applyAppInfoR pkg activity st e).2.event_type = e.event_type := by
  unfold applyAppInfoR
  split <;> split <;> split <;> rfl

theorem applyAppInfoR_pending (pkg activity : String) (st : RState) (e : PendingEvent) :
    (applyAppInfoR pkg activity st e).1.pending_events = st.pending_events := by
  unfold applyAppInfoR
  split <;> split <;> split <;> rfl

theorem resolveFlushR_event_type (hier : List UiNode) (e : PendingEvent) :
    (resolveFlushR hier e).event_type = e.event_type := by
  unfold resolveFlushR
  split <;> rfl

theorem resolveFlushR_of_x_none (hier : List UiNode) (e : PendingEvent) (hx : e.x = none) :
    resolveFlushR hier e = e := by
  unfold resolveFlushR
  rw [hx]
  rfl

theorem resolveFlushA_of_x_none (hier : List UiNode) (e : PendingEvent) (hx : e.x = none) :
    resolveFlushA hier e = e := by
  unfold resolveFlushA isCompleteA
  rw [hx]
  rfl

theorem flushLoopR_fst (now : ℤ) (hier : List UiNode) :
    ∀ (l : List (String × PendingEvent)) (k : Nat),
      (flushLoopR now hier l k).1 =
        l.filter (fun p => decide (now - p.2.created_at ≤ bufferTimeout)) := by
  intro l
  induction l with
  | nil => intro k; rfl
  | cons hd tl ih =>
    intro k
    obtain ⟨eid, e⟩ := hd
    by_cases h : now - e.created_at > bufferTimeout
    · have hkeep : decide (now - e.created_at ≤ bufferTimeout) = false := by
        simp only [decide_eq_false_iff_not]
        omega
      simp [flushLoopR, if_pos h, ih, List.filter_cons, hkeep]
      rw [if_neg (by omega)]
    · have hkeep : decide (now - e.created_at ≤ bufferTimeout) = true := by
        simp only [decide_eq_true_eq]
        omega
      simp [flushLoopR, if_neg h, ih, List.filter_cons, hkeep]
      rw [if_pos (by omega)]

theorem flushLoopR_emits (now : ℤ) (hier : List UiNode) :
    ∀ (l : List (String × PendingEvent)) (k : Nat) (eid : String) (e : PendingEvent),
      (eid, e) ∈ l → now - e.created_at > bufferTimeout →
      EmittedWithId (flushLoopR now hier l k).2.1 (resolveFlushR hier e) := by
  intro l
  induction l with
  | nil => intro k eid e h; cases h
  | cons hd tl ih =>
    intro k eid e hmem hage
    rcases List.mem_cons.mp hmem with heq | htl
    · subst heq
      simp only [flushLoopR, if_pos hage]
      exact ⟨k, List.mem_cons_self _ _⟩
    · obtain ⟨eid2, e2⟩ := hd
      by_cases h : now - e2.created_at > bufferTimeout
      · obtain ⟨j, hj⟩ := ih (k + 1) eid e htl hage
        simp only [flushLoopR, if_pos h]
        exact ⟨j, List.mem_cons_of_mem _ hj⟩
      · obtain ⟨j, hj⟩ := ih k eid e htl hage
        simp only [flushLoopR, if_neg h]
        exact ⟨j, hj⟩

theorem flushLoopR_records_types (now : ℤ) (hier : List UiNode) :
    ∀ (l : List (String × PendingEvent)) (k : Nat),
      PendingTypesOK l → RecordTypesOK (flushLoopR now hier l k).2.1 := by
  intro l
  induction l with
  | nil => intro k _ r hr; cases hr
  | cons hd tl ih =>
    intro k hOK r hr
    obtain ⟨eid, e⟩ := hd
    have hOKtl : PendingTypesOK tl := fun p hp => hOK p (List.mem_cons_of_mem _ hp)
    by_cases h : now - e.created_at > bufferTimeout
    · simp only [flushLoopR, if_pos h] at hr
      rcases List.mem_cons.mp hr with heq | h2
      · rw [heq]
        show (resolveFlushR hier e).event_type ∈ allowedTypes
        rw [resolveFlushR_event_type]
        exact hOK (eid, e) (List.mem_cons_self _ _)
      · exact ih (k + 1) hOKtl r h2
    · simp only [flushLoopR, if_neg h] at hr
      exact ih k hOKtl r hr

theorem flushLoopA_fst (now : ℤ) (hier : List UiNode) :
    ∀ (l : List (String × PendingEvent)) (k : Nat),
      (flushLoopA now hier l k).1 =
        l.filter
          (fun p => !(isCompleteA p.2 || decide (now - p.2.created_at > bufferTimeout))) := by
  intro l
  induction l with
  | nil => intro k; rfl
  | cons hd tl ih =>
    intro k
    obtain ⟨eid, e⟩ := hd
    by_cases h : (isCompleteA e || decide (now - e.created_at > bufferTimeout)) = true
    · simp [flushLoopA, if_pos h, ih, List.filter_cons, h]
      rw [if_neg]
      rintro ⟨hc, hle⟩
      rw [hc] at h
      simp only [Bool.false_or, decide_eq_true_eq] at h
      omega
    · simp only [Bool.not_eq_true] at h
      have h2 := Bool.or_eq_false_iff.mp h
      have h3 : now ≤ bufferTimeout + e.created_at := by
        have := of_decide_eq_false h2.2
        omega
      simp [flushLoopA, h, ih, List.filter_cons]
      rw [if_pos ⟨h2.1, h3⟩]

theorem flushLoopA_emits (now : ℤ) (hier : List UiNode) :
    ∀ (l : List (String × PendingEvent)) (k : Nat) (eid : String) (e : PendingEvent),
      (eid, e) ∈ l → (isCompleteA e || decide (now - e.created_at > bufferTimeout)) = true →
      EmittedWithId (flushLoopA now hier l k).2.1 (resolveFlushA hier e) := by
  intro l
  induction l with
  | nil => intro k eid e h; cases h
  | cons hd tl ih =>
    intro k eid e hmem hcond
    rcases List.mem_cons.mp hmem with heq | htl
    · subst heq
      simp only [flushLoopA, if_pos hcond]
      exact ⟨k, List.mem_cons_self _ _⟩
    · obtain ⟨eid2, e2⟩ := hd
      by_cases h : (isCompleteA e2 || decide (now - e2.created_at > bufferTimeout)) = true
      · obtain ⟨j, hj⟩ := ih (k + 1) eid e htl hcond
        simp only [flushLoopA, if_pos h]
        exact ⟨j, List.mem_cons_of_mem _ hj⟩
      · obtain ⟨j, hj⟩ := ih k eid e htl hcond
        simp only [flushLoopA, if_neg h]
        exact ⟨j, hj⟩

theorem parseEventR_event_type_mem (line : String) (t : String)
    (h : (parseEventR line).event_type = some t) : t ∈ fiveTypes := by
  unfold parseEventR at h
  repeat' split at h
  all_goals
    first
      | exact Option.noConfusion h
      | (injection h with h2; subst h2; decide)

theorem collectEventDataR_types (appInfo : String × String) (ts : String) (now : ℤ)
    (line : String) (st : RState) (hOK : PendingTypesOK st.pending_events) :
    PendingTypesOK (collectEventDataR appInfo ts now line st).pending_events := by
  unfold collectEventDataR
  by_cases hdev : pyStartsWith "/dev/input/" line = true
  · simp only [hdev, if_true]
    exact hOK
  · simp only [Bool.not_eq_true] at hdev
    simp only [hdev, Bool.false_eq_true, if_false]
    cases hinfo : (parseEventR line).event_type with
    | none =>
      simp only [hinfo]
      intro p hp
      rcases setEntry_mem _ _ _ _ hp with heq | hin
      · subst heq
        show (mergeCoordsExtra _ _).event_type ∈ allowedTypes
        rw [mergeCoordsExtra_event_type]
        cases hl : lookupD st.pending_events
            (ts ++ "_" ++ (none : Option String).getD "UNKNOWN" ++ "_" ++
              st.current_device) with
        | some b =>
          exact hOK _ (lookupD_mem _ _ _ hl)
        | none =>
          show ("UNKNOWN" : String) ∈ allowedTypes
          decide
      · exact hOK _ hin
    | some t =>
      have ht : t ∈ allowedTypes := by
        have := parseEventR_event_type_mem line t hinfo
        simp only [allowedTypes, List.mem_append]
        exact Or.inl this
      simp only [hinfo]
      by_cases hsig : t = "TOUCH_DOWN" ∨ t = "KEY_DOWN"
      · simp only [hsig, if_true]
        intro p hp
        rw [applyAppInfoR_pending] at hp
        rcases setEntry_mem _ _ _ _ hp with heq | hin
        · subst heq
          show (applyAppInfoR _ _ _ _).2.event_type ∈ allowedTypes
          rw [applyAppInfoR_event_type]
          exact ht
        · exact hOK _ hin
      · simp only [hsig, if_false]
        intro p hp
        rcases setEntry_mem _ _ _ _ hp with heq | hin
        · subst heq
          exact ht
        · exact hOK _ hin

/-! ## Claim C1: completeness-based flushing -/

/-- C1 counterexample: in `r.py` a pending event with both coordinates
populated and age 50 ms (like the claim's premise, below the 100 ms timeout)
is **not** flushed by the flush-evaluation tick — the tick emits nothing and
leaves the event pending, because `r.py._process_buffer` tests only
`age > buffer_timeout` and has no completeness fast path. -/
theorem c1_counterexample :
    (processBufferTickR 50 RefreshResult.timeout RefreshResult.timeout
        { pending_events := [("09:00:00.000_MOTION_/dev/input/event1",
            { timestamp := "09:00:00.000", device := "/dev/input/event1",
              package := "p", activity := "a", event_type := "MOTION",
              x := some 100, y := some 50, created_at := 0,
              resource_id := "unknown", extra_info := "" })] }).2 = [] ∧
    (processBufferTickR 50 RefreshResult.timeout RefreshResult.timeout
        { pending_events := [("09:00:00.000_MOTION_/dev/input/event1",
            { timestamp := "09:00:00.000", device := "/dev/input/event1",
              package := "p", activity := "a", event_type := "MOTION",
              x := some 100, y := some 50, created_at := 0,
              resource_id := "unknown", extra_info := "" })] }).1.pending_events =
      [("09:00:00.000_MOTION_/dev/input/event1",
        { timestamp := "09:00:00.000", device := "/dev/input/event1",
          package := "p", activity := "a", event_type := "MOTION",
          x := some 100, y := some 50, created_at := 0,
          resource_id := "unknown", extra_info := "" })] := by decide

/-- C1 (amended): only `adbpull.py` flushes on completeness — its tick
flushes every pending event with both coordinates populated immediately,
whatever its age, resolving `resource_id` against the snapshot current at
that tick; `r.py`'s tick never flushes an event whose age is still within
the buffering timeout, complete or not (completeness alone does not suffice
there). -/
theorem c1_completeness_flush (now : ℤ) (hier : List UiNode)
    (l : List (String × PendingEvent)) (k : Nat) (eid : String) (e : PendingEvent) :
    ((eid, e) ∈ l → isCompleteA e = true →
      (eid, e) ∉ (flushLoopA now hier l k).1 ∧
      EmittedWithId (flushLoopA now hier l k).2.1 (resolveFlushA hier e) ∧
      resolveFlushA hier e = { e with resource_id := findResourceA e.x e.y hier }) ∧
    ((eid, e) ∈ l → now - e.created_at ≤ bufferTimeout →
      (eid, e) ∈ (flushLoopR now hier l k).1) := by
  constructor
  · intro hmem hc
    refine ⟨?_, ?_, ?_⟩
    · rw [flushLoopA_fst]
      intro hmem2
      have h2 := (List.mem_filter.mp hmem2).2
      rw [hc] at h2
      simp at h2
    · exact flushLoopA_emits now hier l k eid e hmem (by rw [hc]; rfl)
    · unfold resolveFlushA
      rw [hc]
      rfl
  · intro hmem hage
    rw [flushLoopR_fst]
    refine List.mem_filter.mpr ⟨hmem, ?_⟩
    simp only [decide_eq_true_eq]
    omega

/-- Witness for C1: a complete event of age 50 ms over a one-node snapshot —
flushed with a resolved resource id by `adbpull.py`'s loop, kept pending by
`r.py`'s. -/
theorem c1_completeness_flush_witness :
    (("i", completeEvent) ∉ (flushLoopA 50 [btnNode] [("i", completeEvent)] 0).1 ∧
      EmittedWithId (flushLoopA 50 [btnNode] [("i", completeEvent)] 0).2.1
        (resolveFlushA [btnNode] completeEvent) ∧
      resolveFlushA [btnNode] completeEvent =
        { completeEvent with
            resource_id := findResourceA completeEvent.x completeEvent.y [btnNode] }) ∧
    ("i", completeEvent) ∈ (flushLoopR 50 [btnNode] [("i", completeEvent)] 0).1 := by
  constructor
  · exact (c1_completeness_flush 50 [btnNode] [("i", completeEvent)] 0 "i" completeEvent).1
      (by decide) (by decide)
  · exact (c1_completeness_flush 50 [btnNode] [("i", completeEvent)] 0 "i" completeEvent).2
      (by decide) (by decide)

/-! ## Claim C2: coordinate-only fragments -/

/-- C2 counterexample: in `r.py`, a coordinate-only fragment does **not**
update the most recently active pending event (a `TOUCH_DOWN` entry, whose
coordinates stay `none`); it creates a brand-new pending entry keyed with
the `UNKNOWN` placeholder kind that absorbs the coordinate. -/
theorem c2_counterexample :
    (collectEventDataR ("unknown", "unknown") "09:00:00.050" 50
        "EV_ABS ABS_MT_POSITION_X 0x64"
        { current_device := "/dev/input/event1",
          pending_events := [("09:00:00.000_TOUCH_DOWN_/dev/input/event1",
            { timestamp := "09:00:00.000", device := "/dev/input/event1",
              package := "p", activity := "a", event_type := "TOUCH_DOWN",
              x := none, y := none, created_at := 0,
              resource_id := "unknown", extra_info := "" })] }).pending_events =
      [("09:00:00.000_TOUCH_DOWN_/dev/input/event1",
        { timestamp := "09:00:00.000", device := "/dev/input/event1",
          package := "p", activity := "a", event_type := "TOUCH_DOWN",
          x := none, y := none, created_at := 0,
          resource_id := "unknown", extra_info := "" }),
       ("09:00:00.050_UNKNOWN_/dev/input/event1",
        { timestamp := "09:00:00.050", device := "/dev/input/event1",
          package := "unknown", activity := "unknown", event_type := "UNKNOWN",
          x := some 100, y := none, created_at := 50,
          resource_id := "unknown", extra_info := "" })] := by decide

/-- C2 (amended): a fragment with coordinate data and no kind never updates
an existing kind-bearing pending event.  In `adbpull.py` it leaves the
pending map untouched and updates the session-global coordinate register
(whose values are copied into the next kind-bearing fragment's event — the
actual carry-forward mechanism); in `r.py` it is routed by the key
`timestamp_UNKNOWN_device` and, when that key is unseen, appends a brand-new
pending entry of kind `"UNKNOWN"` holding the coordinates. -/
theorem c2_coordinate_only_fragments
    (appInfo : String × String) (hierRes : RefreshResult) (ts : String) (now : ℤ)
    (line : String) (stA : AState) (stR : RState)
    (hdev : pyStartsWith "/dev/input/" line = false) :
    ((parseEventA line).event_type = none →
      (collectEventDataA appInfo hierRes ts now line stA).pending_events
          = stA.pending_events ∧
      (collectEventDataA appInfo hierRes ts now line stA).coords_x
          = ((parseEventA line).x).or stA.coords_x ∧
      (collectEventDataA appInfo hierRes ts now line stA).coords_y
          = ((parseEventA line).y).or stA.coords_y) ∧
    ((parseEventR line).event_type = none →
      lookupD stR.pending_events (ts ++ "_" ++ "UNKNOWN" ++ "_" ++ stR.current_device)
          = none →
      (collectEventDataR appInfo ts now line stR).pending_events
          = stR.pending_events ++
              [(ts ++ "_" ++ "UNKNOWN" ++ "_" ++ stR.current_device,
                mergeCoordsExtra (freshPendingR ts stR "UNKNOWN" now) (parseEventR line))] ∧
      (mergeCoordsExtra (freshPendingR ts stR "UNKNOWN" now) (parseEventR line)).event_type
          = "UNKNOWN") := by
  constructor
  · intro h
    refine ⟨?_, ?_, ?_⟩ <;>
      simp only [collectEventDataA, hdev, Bool.false_eq_true, if_false, h]
  · intro h hnone
    constructor
    · simp only [collectEventDataR, hdev, Bool.false_eq_true, if_false, h,
        Option.getD_none]
      rw [hnone]
      exact setEntry_of_lookup_none _ _ _ hnone
    · rw [mergeCoordsExtra_event_type]
      rfl

/-- Witness for C2: an X-coordinate line against concrete recorder states. -/
theorem c2_coordinate_only_fragments_witness :
    ((collectEventDataA ("unknown", "unknown") RefreshResult.timeout "09:00:00.050" 50
        "EV_ABS ABS_MT_POSITION_X 0x64"
        { coords_y := some 7 }).pending_events = [] ∧
      (collectEventDataA ("unknown", "unknown") RefreshResult.timeout "09:00:00.050" 50
        "EV_ABS ABS_MT_POSITION_X 0x64"
        { coords_y := some 7 }).coords_x
          = ((parseEventA "EV_ABS ABS_MT_POSITION_X 0x64").x).or none ∧
      (collectEventDataA ("unknown", "unknown") RefreshResult.timeout "09:00:00.050" 50
        "EV_ABS ABS_MT_POSITION_X 0x64"
        { coords_y := some 7 }).coords_y
          = ((parseEventA "EV_ABS ABS_MT_POSITION_X 0x64").y).or (some 7)) ∧
    ((collectEventDataR ("unknown", "unknown") "09:00:00.050" 50
        "EV_ABS ABS_MT_POSITION_X 0x64" { }).pending_events
        = [] ++
            [("09:00:00.050" ++ "_" ++ "UNKNOWN" ++ "_" ++ "unknown",
              mergeCoordsExtra (freshPendingR "09:00:00.050" { } "UNKNOWN" 50)
                (parseEventR "EV_ABS ABS_MT_POSITION_X 0x64"))] ∧
      (mergeCoordsExtra (freshPendingR "09:00:00.050" { } "UNKNOWN" 50)
          (parseEventR "EV_ABS ABS_MT_POSITION_X 0x64")).event_type = "UNKNOWN") := by
  constructor
  · exact (c2_coordinate_only_fragments ("unknown", "unknown") RefreshResult.timeout
      "09:00:00.050" 50 "EV_ABS ABS_MT_POSITION_X 0x64" { coords_y := some 7 } { }
      (by decide)).1 (by decide)
  · exact (c2_coordinate_only_fragments ("unknown", "unknown") RefreshResult.timeout
      "09:00:00.050" 50 "EV_ABS ABS_MT_POSITION_X 0x64" { coords_y := some 7 } { }
      (by decide)).2 (by decide) (by decide)

/-! ## Claim C3: kind-only events flush at timeout with null fields -/

/-- C3: a pending event holding only a kind (both coordinates null,
`resource_id` still the `"unknown"` creation default) is never flushed by
either recorder's loop while its age is within the 100 ms buffer timeout,
and once the age exceeds the timeout it is emitted as the unchanged event —
so the record carries `x = null`, `y = null` and `resource_id = "unknown"`
(resolution is skipped for incomplete events in both files). -/
theorem c3_kind_only_flush (now : ℤ) (hier : List UiNode)
    (l : List (String × PendingEvent)) (k : Nat) (eid : String) (e : PendingEvent)
    (hx : e.x = none) (_hy : e.y = none) (_hrid : e.resource_id = "unknown")
    (hmem : (eid, e) ∈ l) :
    (now - e.created_at ≤ bufferTimeout →
      (eid, e) ∈ (flushLoopR now hier l k).1 ∧
      (eid, e) ∈ (flushLoopA now hier l k).1) ∧
    (now - e.created_at > bufferTimeout →
      EmittedWithId (flushLoopR now hier l k).2.1 e ∧
      EmittedWithId (flushLoopA now hier l k).2.1 e) := by
  constructor
  · intro hage
    constructor
    · rw [flushLoopR_fst]
      refine List.mem_filter.mpr ⟨hmem, ?_⟩
      simp only [decide_eq_true_eq]
      omega
    · rw [flushLoopA_fst]
      refine List.mem_filter.mpr ⟨hmem, ?_⟩
      show (!(isCompleteA e || decide (now - e.created_at > bufferTimeout))) = true
      simp only [isCompleteA, hx, Option.isSome_none, Bool.false_and, Bool.false_or,
        Bool.not_eq_true', decide_eq_false_iff_not]
      omega
  · intro hage
    constructor
    · have h := flushLoopR_emits now hier l k eid e hmem hage
      rwa [resolveFlushR_of_x_none hier e hx] at h
    · have h := flushLoopA_emits now hier l k eid e hmem
        (by rw [Bool.or_eq_true, decide_eq_true_eq]; exact Or.inr hage)
      rwa [resolveFlushA_of_x_none hier e hx] at h

/-- Witness for C3: at age exactly 100 ms the event is still pending in both
loops (the comparison is strict); at 101 ms both emit it unchanged. -/
theorem c3_kind_only_flush_witness :
    (("i", kindOnlyEvent) ∈ (flushLoopR 100 [btnNode] [("i", kindOnlyEvent)] 0).1 ∧
      ("i", kindOnlyEvent) ∈ (flushLoopA 100 [btnNode] [("i", kindOnlyEvent)] 0).1) ∧
    (EmittedWithId (flushLoopR 101 [btnNode] [("i", kindOnlyEvent)] 0).2.1 kindOnlyEvent ∧
      EmittedWithId (flushLoopA 101 [btnNode] [("i", kindOnlyEvent)] 0).2.1 kindOnlyEvent) := by
  constructor
  · exact (c3_kind_only_flush 100 [btnNode] [("i", kindOnlyEvent)] 0 "i" kindOnlyEvent
      rfl rfl rfl (by decide)).1 (by decide)
  · exact (c3_kind_only_flush 101 [btnNode] [("i", kindOnlyEvent)] 0 "i" kindOnlyEvent
      rfl rfl rfl (by decide)).2 (by decide)

/-! ## Claim C4: the range of emitted event types -/

/-- C4 counterexample: `r.py` emits records outside the five schema kinds.
Feeding one coordinate-only stream line into a fresh recorder creates an
`"UNKNOWN"`-kinded pending entry, and the flush tick 200 ms later writes it
out: the output array receives a record whose `event_type` is `"UNKNOWN"`,
which is none of TOUCH_DOWN, TOUCH_UP, MOTION, KEY_DOWN, KEY_UP. -/
theorem c4_counterexample :
    ((processBufferTickR 200 RefreshResult.timeout RefreshResult.timeout
        (collectEventDataR ("unknown", "unknown") "09:00:00.000" 0
          "EV_ABS ABS_MT_POSITION_X 0x64" { })).2.map
        (fun r => r.event_type)) = ["UNKNOWN"] ∧
    ("UNKNOWN" : String) ∉ fiveTypes := by decide

/-- C4 (amended): every record `r.py` emits has an `event_type` from the
five schema kinds **plus** the `"UNKNOWN"` placeholder: the tokenizer only
ever produces the five kinds, `_collect_event_data` keeps every pending
entry's kind within the six-value set (kind-less fragments get
`"UNKNOWN"`), and the flush loop emits records with the pending events'
kinds unchanged. -/
theorem c4_event_type_range :
    (∀ (line t : String), (parseEventR line).event_type = some t → t ∈ fiveTypes) ∧
    (∀ (appInfo : String × String) (ts : String) (now : ℤ) (line : String) (st : RState),
      PendingTypesOK st.pending_events →
      PendingTypesOK (collectEventDataR appInfo ts now line st).pending_events) ∧
    (∀ (now : ℤ) (hier : List UiNode) (l : List (String × PendingEvent)) (k : Nat),
      PendingTypesOK l → RecordTypesOK (flushLoopR now hier l k).2.1) :=
  ⟨parseEventR_event_type_mem, collectEventDataR_types,
    fun now hier l k h => flushLoopR_records_types now hier l k h⟩

/-- Witness for C4 at concrete inputs. -/
theorem c4_event_type_range_witness :
    (("MOTION" : String) ∈ fiveTypes) ∧
    PendingTypesOK (collectEventDataR ("unknown", "unknown") "09:00:00.000" 0
      "EV_SYN SYN_REPORT 00000000" { }).pending_events ∧
    RecordTypesOK (flushLoopR 200 [btnNode] [("i", kindOnlyEvent)] 0).2.1 := by
  refine ⟨?_, ?_, ?_⟩
  · exact c4_event_type_range.1 "EV_SYN SYN_REPORT 00000000" "MOTION" (by decide)
  · exact c4_event_type_range.2.1 ("unknown", "unknown") "09:00:00.000" 0
      "EV_SYN SYN_REPORT 00000000" { } (by decide)
  · exact c4_event_type_range.2.2 200 [btnNode] [("i", kindOnlyEvent)] 0 (by decide)

end AppiumRec
